import Mathlib

/-!
Shallow embedding of `data-collection/dbutils.py` (class `DB_Utils`), the
dual-backend persistence layer of the ForexVision repository, together with
theorems settling the specification claims about it.

Modelling conventions:
* Python values stored in records are opaque to the logic under verification;
  they are modelled by an inductive `Value` (strings, integers for the numeric
  fields, and null).  No claim computes on the numeric contents.
* The SQLite engine is modelled at the level the code relies on: a table is a
  list of rows and an `INSERT` raises `IntegrityError` exactly when the new
  row's primary-key projection collides with an existing row (the
  `PRIMARY KEY` clauses of the two `CREATE TABLE` statements).
* Side effects observable to the caller (`print` log lines, raised exceptions)
  are made explicit: functions return the new state together with an outcome /
  log component, and fallible construction returns `Except`.
* The pymongo driver internals are outside the repository; where the code
  delegates wholesale to the driver (`collection.find(...)`, network liveness)
  the driver's behaviour is a parameter (an oracle argument) and the embedding
  captures exactly what the repository's code does around it.
-/

namespace ForexVision

/-- A stored value: the rows hold TEXT and REAL columns plus the nullable
`corr_btc`; numeric contents are opaque to every verified property, so reals
are represented by integers. -/
inductive Value where
  | str : String → Value
  | int : Int → Value
  | null : Value
deriving DecidableEq, Repr

/-- A record: the ordered tuple of values a caller hands to an insert,
matching the schema's field order (`data` in the Python code). -/
abbrev Record := List Value

/-- A field→value mapping (a Python dict built by `zip`), the uniform result
shape of `find_records`. -/
abbrev Doc := List (String × Value)

/-- The mode-specific schema data set by `__set_mode_specifics`: the ordered
column list of the `CREATE TABLE` / `INSERT` statements, the indices of the
primary-key columns within that order, and the keys of `mongo_data_dict`. -/
structure ModeSpecifics where
  sqlFields : List String
  pkIndices : List Nat
  mongoFields : List String
deriving DecidableEq, Repr

/-- Schema for mode `aux` (dbutils.py lines 47-63): columns
`timestamp, currency, rate`, `PRIMARY KEY (timestamp, currency)`. -/
def auxSpecifics : ModeSpecifics :=
  { sqlFields := ["timestamp", "currency", "rate"]
    pkIndices := [0, 1]
    mongoFields := ["timestamp", "currency", "rate"] }

/-- Schema for mode `main` (dbutils.py lines 65-97): ten columns with
`PRIMARY KEY (timestamp)`. -/
def mainSpecifics : ModeSpecifics :=
  { sqlFields := ["timestamp", "currency", "max", "min", "max_min", "mean",
                  "corr_btc", "norm_vol", "fd", "insert_timestamp"]
    pkIndices := [0]
    mongoFields := ["timestamp", "currency", "max", "min", "max_min", "mean",
                    "corr_btc", "norm_vol", "fd", "insert_timestamp"] }

/-- `__set_mode_specifics` (lines 45-97): an `if mode == 'aux' / elif 'main'`
with no `else` branch, so an unrecognized mode sets no attributes at all —
modelled as `none`. -/
def set_mode_specifics (mode : String) : Option ModeSpecifics :=
  if mode = "aux" then some auxSpecifics
  else if mode = "main" then some mainSpecifics
  else none

/-- Errors construction can raise.  `attributeError` is Python's
`AttributeError` (reading an attribute that was never set); `valueError` is a
`raise ValueError(msg)`; `connectionFailure` is the pymongo exception
re-raised at line 120.  `unknownMode` is the spec taxonomy's dedicated
construction error for an unrecognized mode; the source code never raises it
(it is included so that claims about it can be stated). -/
inductive InitError where
  | attributeError : String → InitError
  | valueError : String → InitError
  | connectionFailure : InitError
  | unknownMode : InitError
deriving DecidableEq, Repr

/-- The remote document-store collection: a bag of documents. -/
structure MongoCollection where
  docs : List Doc
deriving DecidableEq, Repr

/-- `__create_mongo_db` (lines 107-122): with no URI it raises
`ValueError("MongoDB URI is required for Atlas connection")`; with a URI it
connects and runs a `ping` liveness check, re-raising on failure; only on a
successful ping are `self.db` / `self.collection` set.  Whether the remote
backend is reachable and live is outside the repository, so it is the
`pingOk` parameter. -/
def create_mongo_db (mongo_uri : Option String) (pingOk : Bool) :
    Except InitError MongoCollection :=
  match mongo_uri with
  | none => .error (.valueError "MongoDB URI is required for Atlas connection")
  | some _ => if pingOk then .ok ⟨[]⟩ else .error .connectionFailure

/-- The primary-key projection of a row under a schema: the values at the
primary-key column indices (`none` when the row is too short, in which case
SQLite would reject the bind anyway). -/
def rowPK (ms : ModeSpecifics) (row : Record) : List (Option Value) :=
  ms.pkIndices.map (fun i => row.get? i)

/-- Whether inserting `data` into `rows` violates primary-key uniqueness:
some existing row has the same primary-key projection. -/
def pkConflict (ms : ModeSpecifics) (rows : List Record) (data : Record) : Bool :=
  rows.any (fun r => decide (rowPK ms r = rowPK ms data))

/-- The one engine failure the code distinguishes (`except sqlite3.IntegrityError`
at line 129): a primary-key constraint violation. -/
inductive SqliteError where
  | integrityError : SqliteError
deriving DecidableEq, Repr

/-- One `cursor.execute(self.sql_insert_cmd, data)`: appends the row unless
its primary key collides with a persisted row, in which case the engine
raises `IntegrityError`. -/
def sqliteInsert (ms : ModeSpecifics) (rows : List Record) (data : Record) :
    Except SqliteError (List Record) :=
  if pkConflict ms rows data then .error .integrityError else .ok (rows ++ [data])

/-- The observable outcome of `push_to_sqlite_db`: the Python function
returns `None`, so its only caller-visible signals are the commit and the
printed log line.  `duplicateLogged` carries `data[0], data[1]`, the values
interpolated into the `"Duplicate entry detected"` message (line 130);
`errorLogged` is the generic `except Exception` branch (lines 131-132), dead
under this engine model because the modelled engine only fails with
`IntegrityError`. -/
inductive PushOutcome where
  | committed : PushOutcome
  | duplicateLogged : Option Value → Option Value → PushOutcome
  | errorLogged : String → PushOutcome
deriving DecidableEq, Repr

/-- `push_to_sqlite_db` (lines 124-132): try insert+commit; on
`IntegrityError` print the duplicate message and continue — the exception is
swallowed, the table is unchanged, nothing is raised to the caller. -/
def push_to_sqlite_db (ms : ModeSpecifics) (st : List Record) (data : Record) :
    List Record × PushOutcome :=
  match sqliteInsert ms st data with
  | .ok st' => (st', .committed)
  | .error .integrityError => (st, .duplicateLogged (data.get? 0) (data.get? 1))

/-- `cursor.executemany(self.sql_insert_cmd, records)` (line 146): executes
the single-row insert once per record, inside one transaction, stopping at
the first engine error. -/
def executemany (ms : ModeSpecifics) : List Record → List Record →
    Except SqliteError (List Record)
  | st, [] => .ok st
  | st, d :: ds =>
    match sqliteInsert ms st d with
    | .ok st' => executemany ms st' ds
    | .error e => .error e

/-- `bulk_insert_sqlite` (lines 142-152): under `self.sql_lock`, run
`executemany` and commit, returning `True`; on any exception print the error,
`rollback()` the whole transaction (restoring the pre-call table) and return
`False`.  The return value is only this boolean. -/
def bulk_insert_sqlite (ms : ModeSpecifics) (st : List Record)
    (records : List Record) : List Record × Bool :=
  match executemany ms st records with
  | .ok st' => (st', true)
  | .error _ => (st, false)

/-- A batch is admissible when inserting its records in order never hits a
primary-key conflict, against the persisted rows or within the batch itself.
This is the specification-level characterization `bulk_insert_sqlite` is
proved to refine. -/
def batchAdmissible (ms : ModeSpecifics) : List Record → List Record → Bool
  | _, [] => true
  | st, d :: ds => !pkConflict ms st d && batchAdmissible ms (st ++ [d]) ds

/-- The three relational write operations the spec names: schema creation
(`__create_sqlite_db`, lines 99-105), single insert (`push_to_sqlite_db`,
lines 124-132) and batch insert (`bulk_insert_sqlite`, lines 142-152). -/
inductive RelationalWrite where
  | ensureSchema : RelationalWrite
  | insertOne : RelationalWrite
  | insertMany : RelationalWrite
deriving DecidableEq, Repr

/-- Which relational write operations acquire the per-instance mutex
`self.sql_lock` in the source: only `bulk_insert_sqlite` has
`with self.sql_lock:` (line 144); `push_to_sqlite_db` and
`__create_sqlite_db` touch the shared connection and cursor without taking
any lock. -/
def acquiresSqlLock : RelationalWrite → Bool
  | .insertMany => true
  | .insertOne => false
  | .ensureSchema => false

/-- `push_to_mongo_db` (lines 134-140): builds the document with
`{key: value for key, value in zip(self.mongo_data_dict.keys(), data)}` —
`zip` truncates to the shorter sequence and no length check exists — then
`insert_one`s it.  The second component is the list of printed error lines;
the modelled driver insert always succeeds, matching a live collection with
no extra unique indexes. -/
def push_to_mongo_db (ms : ModeSpecifics) (coll : MongoCollection)
    (data : Record) : MongoCollection × List String :=
  let document : Doc := ms.mongoFields.zip data
  (⟨coll.docs ++ [document]⟩, [])

/-- A sort direction as passed by Python callers: an integer (Mongo style
`1`/`-1`) or a string (`"ASC"`/`"DESC"`). -/
inductive SortDir where
  | num : Int → SortDir
  | str : String → SortDir
deriving DecidableEq, Repr

/-- Line 242: `dir_str = "DESC" if direction == -1 or direction == "DESC"
else "ASC"` (Python `==` across types is false, so an integer is only
compared with `-1` and a string only with `"DESC"`). -/
def dir_str : SortDir → String
  | .num i => if i = -1 then "DESC" else "ASC"
  | .str s => if s = "DESC" then "DESC" else "ASC"

/-- Lines 227-230: `columns = ', '.join(projection) if projection else '*'`;
an absent (or empty, hence falsy) projection selects all fields. -/
def columns_clause : Option (List String) → String
  | some ps => if ps = [] then "*" else String.intercalate ", " ps
  | none => "*"

/-- Lines 232-235: `where = f"WHERE " + query` only when `query` is truthy;
absent (or empty) predicate emits no filtering clause at all. -/
def where_clause : Option String → String
  | some q => if q = "" then "" else "WHERE " ++ q
  | none => ""

/-- Lines 238-244: an `ORDER BY` listing `field dir_str(direction)` per sort
key, emitted only when the sort list is truthy. -/
def order_by_clause : Option (List (String × SortDir)) → String
  | some ss =>
    if ss = [] then ""
    else "ORDER BY " ++ String.intercalate ", " (ss.map fun fd => fd.1 ++ " " ++ dir_str fd.2)
  | none => ""

/-- Line 247: `limit_clause = f"LIMIT " + limit if limit else ""`; an absent
(or zero, hence falsy) limit emits no row cap. -/
def limit_clause : Option Int → String
  | some n => if n = 0 then "" else "LIMIT " ++ toString n
  | none => ""

/-- Line 250: the rendered statement
`f"SELECT ... FROM ... where order_by limit_clause"`, spaces included. -/
def build_query_str (coll_name : String) (query : Option String)
    (sort : Option (List (String × SortDir))) (projection : Option (List String))
    (limit : Option Int) : String :=
  "SELECT " ++ columns_clause projection ++ " FROM " ++ coll_name ++ " " ++
    where_clause query ++ " " ++ order_by_clause sort ++ " " ++ limit_clause limit

/-- `_find_sqlite` (lines 223-261): render the statement, execute it, read
the column names from `cursor.description` and convert each fetched row to a
field→value mapping with `dict(zip(columns, row))`; any exception is caught,
printed, and an empty list is returned.  The engine execution
(`cursor.execute` + `description` + `fetchall`) is the `exec` oracle: it
yields the result metadata (column names) and the rows, or raises. -/
def find_sqlite (coll_name : String)
    (exec : String → Except String (List String × List Record))
    (query : Option String) (sort : Option (List (String × SortDir)))
    (projection : Option (List String)) (limit : Option Int) :
    List Doc × List String :=
  match exec (build_query_str coll_name query sort projection limit) with
  | .ok (desc, rows) => (rows.map (fun r => desc.zip r), [])
  | .error e => ([], ["SQLite find error: " ++ e])

/-- `_find_mongo` (lines 204-221): the query/sort/limit pipeline is delegated
wholesale to the pymongo cursor, so its outcome is the `run` oracle; the
repository's own code materializes the documents on success and catches any
exception, printing it and returning an empty list. -/
def find_mongo (run : Except String (List Doc)) : List Doc × List String :=
  match run with
  | .ok docs => (docs, [])
  | .error e => ([], ["MongoDB find error: " ++ e])

/-- The error `find_records` can raise: `ValueError("Invalid database mode")`
(line 202). -/
inductive FindError where
  | invalidMode : FindError
deriving DecidableEq, Repr

/-- The facade state after `__init__`: names, resolved schema, the SQLite
table contents and, when `__create_mongo_db` succeeded, the collection handle
(`hasattr(self, 'collection')` is `collection.isSome`). -/
structure DBUtils where
  db_name : String
  collection_name : String
  mode : String
  specifics : ModeSpecifics
  sqliteRows : List Record
  collection : Option MongoCollection
deriving DecidableEq, Repr

/-- `DB_Utils.__init__` (lines 20-43): store the parameters, then
`__set_mode_specifics` → `__create_sqlite_db` → `__create_mongo_db`.  For an
unrecognized mode `__set_mode_specifics` sets nothing, so
`__create_sqlite_db`'s `self.cursor.execute(self.sql_schema)` (line 103)
raises `AttributeError` for the missing `sql_schema` attribute before the
mongo step runs.  `CREATE TABLE IF NOT EXISTS` on a fresh database yields an
empty table.  Any raised error propagates: the caller never receives a
partially-initialized instance. -/
def mkDBUtils (db_name coll_name mode : String) (mongo_uri : Option String)
    (pingOk : Bool) : Except InitError DBUtils :=
  match set_mode_specifics mode with
  | none => .error (.attributeError "sql_schema")
  | some ms =>
    match create_mongo_db mongo_uri pingOk with
    | .error e => .error e
    | .ok c =>
      .ok { db_name := db_name, collection_name := coll_name, mode := mode,
            specifics := ms, sqliteRows := [], collection := some c }

/-- `find_records` (lines 182-202): for a recognized mode, dispatch on
`hasattr(self, 'collection')` — the document path when the handle exists,
otherwise the relational path; any other mode raises `ValueError`. -/
def find_records (db : DBUtils) (mongoRun : Except String (List Doc))
    (sqlExec : String → Except String (List String × List Record))
    (query : Option String) (sort : Option (List (String × SortDir)))
    (projection : Option (List String)) (limit : Option Int) :
    Except FindError (List Doc × List String) :=
  if db.mode = "aux" ∨ db.mode = "main" then
    match db.collection with
    | some _ => .ok (find_mongo mongoRun)
    | none => .ok (find_sqlite db.collection_name sqlExec query sort projection limit)
  else
    .error .invalidMode

/-! Concrete records used by witnesses and counterexamples (aux-mode rows,
the shape of the spec's Scenario A). -/

/-- Aux row `(t1, BTC, 100)`. -/
def recAux1 : Record := [Value.str "t1", Value.str "BTC", Value.int 100]

/-- Aux row `(t1, BTC, 105)`: same primary key as `recAux1`, different rate. -/
def recAux1b : Record := [Value.str "t1", Value.str "BTC", Value.int 105]

/-- Aux row `(t2, BTC, 101)`: a distinct primary key. -/
def recAux2 : Record := [Value.str "t2", Value.str "BTC", Value.int 101]

/-- `executemany` refines `batchAdmissible`: it yields the fully-extended
table exactly when no insert of the batch conflicts, and the engine error
otherwise. -/
theorem executemany_eq (ms : ModeSpecifics) (st records : List Record) :
    executemany ms st records =
      if batchAdmissible ms st records then .ok (st ++ records)
      else .error .integrityError := by
  induction records generalizing st with
  | nil => simp [executemany, batchAdmissible]
  | cons d ds ih =>
    by_cases h : pkConflict ms st d
    · simp [executemany, sqliteInsert, batchAdmissible, h]
    · have step : executemany ms st (d :: ds) = executemany ms (st ++ [d]) ds := by
        simp [executemany, sqliteInsert, h]
      rw [step, ih (st ++ [d])]
      simp [batchAdmissible, h, List.append_assoc]

/-- C1: inserting a record whose primary key is fresh commits it; a second
single insert of the same key via `push_to_sqlite_db` leaves the table
unchanged — exactly one row with that key, holding the original value — and
the caller observes the duplicate-entry signal instead of a raised fatal
error (the function is total: the `IntegrityError` is caught). -/
theorem C1_duplicate_single_insert (ms : ModeSpecifics) (st : List Record)
    (data data' : Record) (hpk : rowPK ms data' = rowPK ms data)
    (hfresh : pkConflict ms st data = false) :
    push_to_sqlite_db ms st data = (st ++ [data], PushOutcome.committed) ∧
    push_to_sqlite_db ms (st ++ [data]) data' =
      (st ++ [data], PushOutcome.duplicateLogged (data'.get? 0) (data'.get? 1)) ∧
    (st ++ [data]).countP (fun r => decide (rowPK ms r = rowPK ms data)) = 1 := by
  have h1 : push_to_sqlite_db ms st data = (st ++ [data], PushOutcome.committed) := by
    simp [push_to_sqlite_db, sqliteInsert, hfresh]
  have hconf : pkConflict ms (st ++ [data]) data' = true := by
    simp [pkConflict, List.any_append, hpk]
  refine ⟨h1, ?_, ?_⟩
  · simp [push_to_sqlite_db, sqliteInsert, hconf]
  · rw [List.countP_append]
    have hz : st.countP (fun r => decide (rowPK ms r = rowPK ms data)) = 0 := by
      rw [List.countP_eq_zero]
      intro a ha
      have hall : ∀ x ∈ st, ¬ rowPK ms x = rowPK ms data := by
        simpa [pkConflict] using hfresh
      simpa using hall a ha
    simp [hz, List.countP_cons]

/-- C1 witness: Scenario A in aux mode — `(t1, BTC, 100)` then
`(t1, BTC, 105)` leaves one row, the original, and logs a duplicate. -/
theorem C1_witness :
    push_to_sqlite_db auxSpecifics [] recAux1 = ([recAux1], PushOutcome.committed) ∧
    push_to_sqlite_db auxSpecifics [recAux1] recAux1b =
      ([recAux1], PushOutcome.duplicateLogged (recAux1b.get? 0) (recAux1b.get? 1)) ∧
    [recAux1].countP (fun r => decide (rowPK auxSpecifics r = rowPK auxSpecifics recAux1)) = 1 := by
  have h := C1_duplicate_single_insert auxSpecifics [] recAux1 recAux1b
    (by decide) (by decide)
  simpa using h

/-- C2 counterexample: `bulk_insert_sqlite` returns only a boolean, so no
reading of its return value can recover an inserted count — two successful
batches of different sizes return the same value `true`.  This refutes the
claim that the operation returns an `insertedCount` together with the
success flag. -/
theorem C2_counterexample :
    ¬ ∃ f : Bool → Nat,
        f (bulk_insert_sqlite auxSpecifics [] [recAux1]).2 = 1 ∧
        f (bulk_insert_sqlite auxSpecifics [] [recAux1, recAux2]).2 = 2 := by
  rintro ⟨f, h1, h2⟩
  have e1 : (bulk_insert_sqlite auxSpecifics [] [recAux1]).2 = true := by decide
  have e2 : (bulk_insert_sqlite auxSpecifics [] [recAux1, recAux2]).2 = true := by decide
  rw [e1] at h1
  rw [e2] at h2
  omega

/-- C2 (amended): the batch is one transaction with all-or-nothing
semantics — if every record of the batch inserts without a primary-key
conflict the whole batch is appended and the call returns `true`, and on any
failure the transaction is rolled back so the table is exactly its pre-call
contents and the call returns `false`; the only value returned to the caller
is that success flag. -/
theorem C2_batch_all_or_nothing (ms : ModeSpecifics) (st records : List Record) :
    bulk_insert_sqlite ms st records =
      if batchAdmissible ms st records then (st ++ records, true)
      else (st, false) := by
  rw [bulk_insert_sqlite, executemany_eq]
  by_cases h : batchAdmissible ms st records <;> simp [h]

/-- C3: which relational writes take the per-instance mutex in the source —
only the batch insert does; the single insert and schema creation run
unguarded on the shared connection, contradicting the claim that every
relational write serializes through `self.sql_lock`. -/
theorem C3_lock_coverage :
    acquiresSqlLock RelationalWrite.insertMany = true ∧
    acquiresSqlLock RelationalWrite.insertOne = false ∧
    acquiresSqlLock RelationalWrite.ensureSchema = false := by
  decide

/-- C4 counterexample: constructing with mode `"bogus"` fails with
`AttributeError` on the never-set `sql_schema` attribute, which is not the
dedicated `UnknownMode` error of the claimed taxonomy. -/
theorem C4_counterexample :
    mkDBUtils "forex" "rates" "bogus" (some "mongodb") true =
      .error (InitError.attributeError "sql_schema") ∧
    InitError.attributeError "sql_schema" ≠ InitError.unknownMode := by
  refine ⟨rfl, ?_⟩
  intro h
  exact InitError.noConfusion h

/-- C4 (amended): for every mode other than `aux` and `main`, construction
fails and the error propagates to the caller, but the error is the
`AttributeError` raised when schema creation reads the unset schema
attribute, not a dedicated `UnknownMode` error. -/
theorem C4_unknown_mode_fails (db coll mode : String) (uri : Option String)
    (pingOk : Bool) (h1 : mode ≠ "aux") (h2 : mode ≠ "main") :
    mkDBUtils db coll mode uri pingOk =
      .error (InitError.attributeError "sql_schema") := by
  simp [mkDBUtils, set_mode_specifics, h1, h2]

/-- C4 witness: mode `"hourly"` with no URI — construction already fails at
the schema step. -/
theorem C4_witness :
    ("hourly" : String) ≠ "aux" ∧ ("hourly" : String) ≠ "main" ∧
    mkDBUtils "forex" "rates" "hourly" none false =
      .error (InitError.attributeError "sql_schema") :=
  ⟨by decide, by decide,
    C4_unknown_mode_fails "forex" "rates" "hourly" none false (by decide) (by decide)⟩

/-- A facade state whose document handle is absent, exercising the
relational branch of `find_records` (reachable only if construction is
bypassed, cf. the C9 theorem). -/
def facSqlOnly : DBUtils :=
  { db_name := "forex", collection_name := "rates", mode := "aux",
    specifics := auxSpecifics, sqliteRows := [], collection := none }

/-- The facade produced by a successful aux-mode construction. -/
def facAux : DBUtils :=
  { db_name := "forex", collection_name := "rates", mode := "aux",
    specifics := auxSpecifics, sqliteRows := [], collection := some ⟨[]⟩ }

/-- A mode that resolves is one of the two recognized modes. -/
theorem set_mode_specifics_some (mode : String) (ms : ModeSpecifics)
    (h : set_mode_specifics mode = some ms) : mode = "aux" ∨ mode = "main" := by
  unfold set_mode_specifics at h
  split_ifs at h with h1 h2
  · exact Or.inl h1
  · exact Or.inr h2

/-- Inversion of a successful construction: the stored mode is recognized and
the collection handle is set. -/
theorem mkDBUtils_ok_inv (db coll mode : String) (uri : Option String)
    (pingOk : Bool) (fac : DBUtils)
    (h : mkDBUtils db coll mode uri pingOk = .ok fac) :
    (fac.mode = "aux" ∨ fac.mode = "main") ∧ ∃ c, fac.collection = some c := by
  unfold mkDBUtils at h
  cases hs : set_mode_specifics mode with
  | none => rw [hs] at h; exact absurd h (by simp)
  | some ms =>
    rw [hs] at h
    cases hc : create_mongo_db uri pingOk with
    | error e => rw [hc] at h; exact absurd h (by simp)
    | ok c =>
      rw [hc] at h
      injection h with h2
      subst h2
      exact ⟨set_mode_specifics_some mode ms hs, ⟨c, rfl⟩⟩

/-- C5: the relational query translator emits no `WHERE` clause for an absent
predicate (the fully rendered statement for an all-defaults call carries no
placeholder constraint), selects `*` for an omitted projection, emits no
`LIMIT` clause for an omitted limit, and normalizes sort directions — `-1`
and `"DESC"` render descending, every other integer or string renders
ascending. -/
theorem C5_translator_rendering :
    build_query_str "rates" none none none none = "SELECT * FROM rates   " ∧
    where_clause none = "" ∧
    columns_clause none = "*" ∧
    limit_clause none = "" ∧
    dir_str (SortDir.num (-1)) = "DESC" ∧
    dir_str (SortDir.str "DESC") = "DESC" ∧
    (∀ i : Int, i ≠ -1 → dir_str (SortDir.num i) = "ASC") ∧
    (∀ s : String, s ≠ "DESC" → dir_str (SortDir.str s) = "ASC") := by
  refine ⟨by decide, rfl, rfl, rfl, rfl, rfl, ?_, ?_⟩
  · intro i hi
    simp [dir_str, hi]
  · intro s hs
    simp [dir_str, hs]

/-- C5 witness: ascending renderings for direction values other than `-1` /
`"DESC"`. -/
theorem C5_witness :
    dir_str (SortDir.num 1) = "ASC" ∧ dir_str (SortDir.str "ASC") = "ASC" :=
  ⟨C5_translator_rendering.2.2.2.2.2.2.1 1 (by decide),
   C5_translator_rendering.2.2.2.2.2.2.2 "ASC" (by decide)⟩

/-- C6: every successful `find_records` call yields a sequence of
field→value mappings of the same shape from either backend — the document
path returns the driver documents unchanged, and the relational path converts
each raw row to a mapping by zipping the executed statement's result metadata
(`cursor.description`) with the row. -/
theorem C6_uniform_result_shape (db : DBUtils)
    (mongoRun : Except String (List Doc))
    (sqlExec : String → Except String (List String × List Record))
    (query : Option String) (sort : Option (List (String × SortDir)))
    (projection : Option (List String)) (limit : Option Int)
    (hmode : db.mode = "aux" ∨ db.mode = "main") :
    (∀ docs : List Doc, db.collection.isSome → mongoRun = .ok docs →
        find_records db mongoRun sqlExec query sort projection limit =
          .ok (docs, [])) ∧
    (∀ desc rows, db.collection = none →
        sqlExec (build_query_str db.collection_name query sort projection limit) =
          .ok (desc, rows) →
        find_records db mongoRun sqlExec query sort projection limit =
          .ok (rows.map (fun r => desc.zip r), [])) := by
  have hif : find_records db mongoRun sqlExec query sort projection limit =
      (match db.collection with
       | some _ => .ok (find_mongo mongoRun)
       | none => .ok (find_sqlite db.collection_name sqlExec query sort projection limit)) := by
    unfold find_records
    rw [if_pos hmode]
  constructor
  · intro docs hsome hrun
    cases ho : db.collection with
    | none => rw [ho] at hsome; simp at hsome
    | some c =>
      rw [hif, ho]
      simp [find_mongo, hrun]
  · intro desc rows hnone hexec
    rw [hif, hnone]
    simp [find_sqlite, hexec]

/-- C6 witness: a relational-path result converted through the statement
metadata, on a facade state with no document handle. -/
theorem C6_witness :
    find_records facSqlOnly (.error "down")
        (fun _ => .ok (["timestamp"], [[Value.str "t1"]])) none none none none =
      .ok ([[("timestamp", Value.str "t1")]], []) := by
  have h := (C6_uniform_result_shape facSqlOnly (.error "down")
      (fun _ => .ok (["timestamp"], [[Value.str "t1"]])) none none none none
      (Or.inl rfl)).2 ["timestamp"] [[Value.str "t1"]] rfl rfl
  simpa using h

/-- C7: construction with a recognized mode fails — with the error
propagating to the caller — whenever the connection URI is absent (the
`ValueError` of line 122) or the liveness check fails (the re-raised driver
exception of line 120); and every successfully constructed facade is fully
initialized, its collection handle set. -/
theorem C7_construction_error_propagation (db coll mode : String) (pingOk : Bool)
    (hmode : mode = "aux" ∨ mode = "main") :
    mkDBUtils db coll mode none pingOk =
      .error (InitError.valueError "MongoDB URI is required for Atlas connection") ∧
    (∀ uri : String, mkDBUtils db coll mode (some uri) false =
        .error InitError.connectionFailure) ∧
    (∀ uri : Option String, ∀ fac : DBUtils,
        mkDBUtils db coll mode uri pingOk = .ok fac →
        fac.collection.isSome = true) := by
  refine ⟨?_, ?_, ?_⟩
  · rcases hmode with h | h <;> subst h <;>
      simp [mkDBUtils, set_mode_specifics, create_mongo_db]
  · intro uri
    rcases hmode with h | h <;> subst h <;>
      simp [mkDBUtils, set_mode_specifics, create_mongo_db]
  · intro uri fac h
    obtain ⟨-, c, hc⟩ := mkDBUtils_ok_inv db coll mode uri pingOk fac h
    simp [hc]

/-- C7 witness: both construction failures at concrete inputs. -/
theorem C7_witness :
    mkDBUtils "forex" "rates" "aux" none true =
      .error (InitError.valueError "MongoDB URI is required for Atlas connection") ∧
    mkDBUtils "forex" "rates" "aux" (some "mongodb") false =
      .error InitError.connectionFailure := by
  have h := C7_construction_error_propagation "forex" "rates" "aux" true (Or.inl rfl)
  exact ⟨h.1, h.2.1 "mongodb"⟩

/-- C8: when executing the rendered statement raises (e.g. a malformed
predicate), `_find_sqlite` returns an empty result plus the surfaced error
line instead of propagating the exception, and `_find_mongo` does the same
for a failing driver query; both functions are total. -/
theorem C8_find_errors_recovered (coll_name : String)
    (exec : String → Except String (List String × List Record))
    (query : Option String) (sort : Option (List (String × SortDir)))
    (projection : Option (List String)) (limit : Option Int) (e : String)
    (hx : exec (build_query_str coll_name query sort projection limit) = .error e) :
    find_sqlite coll_name exec query sort projection limit =
      ([], ["SQLite find error: " ++ e]) ∧
    find_mongo (.error e) = ([], ["MongoDB find error: " ++ e]) := by
  constructor
  · simp [find_sqlite, hx]
  · rfl

/-- C8 witness: a malformed predicate whose execution fails yields the empty
recovered result on both paths. -/
theorem C8_witness :
    find_sqlite "rates" (fun _ => .error "no such column: bogus")
        (some "bogus ==") none none none =
      ([], ["SQLite find error: " ++ "no such column: bogus"]) ∧
    find_mongo (.error "no such column: bogus") =
      ([], ["MongoDB find error: " ++ "no such column: bogus"]) :=
  C8_find_errors_recovered "rates" (fun _ => .error "no such column: bogus")
    (some "bogus ==") none none none "no such column: bogus" rfl

/-- C9: on any successfully constructed facade the collection handle exists,
so `find_records` always dispatches to the document path — the relational
query branch is unreachable through the unified entrypoint. -/
theorem C9_find_dispatches_to_mongo (db coll mode : String) (uri : Option String)
    (pingOk : Bool) (fac : DBUtils)
    (h : mkDBUtils db coll mode uri pingOk = .ok fac)
    (mongoRun : Except String (List Doc))
    (sqlExec : String → Except String (List String × List Record))
    (query : Option String) (sort : Option (List (String × SortDir)))
    (projection : Option (List String)) (limit : Option Int) :
    fac.collection.isSome = true ∧
    find_records fac mongoRun sqlExec query sort projection limit =
      .ok (find_mongo mongoRun) := by
  obtain ⟨hmode, c, hc⟩ := mkDBUtils_ok_inv db coll mode uri pingOk fac h
  refine ⟨by simp [hc], ?_⟩
  unfold find_records
  rw [if_pos hmode, hc]

/-- C9 witness: the facade constructed in aux mode serves `find` from the
document path even though a relational oracle is available. -/
theorem C9_witness :
    facAux.collection.isSome = true ∧
    find_records facAux (.ok []) (fun _ => .error "unused") none none none none =
      .ok (find_mongo (.ok [])) :=
  C9_find_dispatches_to_mongo "forex" "rates" "aux" (some "mongodb") true facAux
    rfl (.ok []) (fun _ => .error "unused") none none none none

/-- C10: for a record whose length differs from the mode's field count,
`push_to_mongo_db` still builds the document by zipping field names with
values — truncating to the shorter of the two — inserts it, and reports no
error; no length validation happens at this interface. -/
theorem C10_mongo_insert_zips_truncating (ms : ModeSpecifics)
    (coll : MongoCollection) (data : Record)
    (h : data.length ≠ ms.mongoFields.length) :
    push_to_mongo_db ms coll data =
      (⟨coll.docs ++ [ms.mongoFields.zip data]⟩, []) ∧
    (ms.mongoFields.zip data).length = min ms.mongoFields.length data.length :=
  ⟨rfl, List.length_zip _ _⟩

/-- C10 witness: a two-value record in aux mode (three fields) inserts a
truncated two-entry document with no error log. -/
theorem C10_witness :
    ([Value.str "t1", Value.str "BTC"] : Record).length ≠
      auxSpecifics.mongoFields.length ∧
    (push_to_mongo_db auxSpecifics ⟨[]⟩ [Value.str "t1", Value.str "BTC"] =
        (⟨[auxSpecifics.mongoFields.zip [Value.str "t1", Value.str "BTC"]]⟩, []) ∧
      (auxSpecifics.mongoFields.zip [Value.str "t1", Value.str "BTC"]).length =
        min auxSpecifics.mongoFields.length
          ([Value.str "t1", Value.str "BTC"] : Record).length) := by
  refine ⟨by decide, ?_⟩
  exact C10_mongo_insert_zips_truncating auxSpecifics ⟨[]⟩
    [Value.str "t1", Value.str "BTC"] (by decide)

end ForexVision
